import Mathlib

/-!
Verification of the LinkedIn job-scraper pipeline.

This file gives a shallow embedding, in Lean, of the parts of the
repository that the specification talks about:

* the two-stage heuristic relevance filter `is_job_post`
  (src/scrape.py, `LinkedInJobScraper.is_job_post`, lines 351-393),
  together with the keyword gate built from `JOB_KEYWORDS`
  (src/config/settings.py, lines 38-56);
* the deduplicating collection loop of `LinkedInJobScraper.scrape_posts`
  (src/scrape.py, lines 273-284);
* the classification orchestrator `ScrapeAndClassify.classify_jobs`
  (src/main.py, lines 57-78);
* the persistence append `ScrapeAndClassify.save_posts_to_csv`
  (src/main.py, lines 103-123);
* the inference entry point `OllamaModelSetup.inference`
  (src/ollama_setup.py, lines 169-193);
* the dead CSV writer `LinkedInJobScraper.save_to_csv`
  (src/scrape.py, lines 290-309) and the scrape module's global
  namespace.

Machine strings are modelled as Lean `String` / `List Char`; the Python
regexes used by the filter are literal alternations and two simple
patterns, unfolded below into explicit substring searches with the same
match semantics.  All patterns are ASCII, so `re.IGNORECASE` matching is
embedded as matching the literal lowercase pattern against the
lowercased text.
-/

namespace LinkedInScraper

/-- The fixed gate patterns `JOB_KEYWORDS` from src/config/settings.py
(lines 38-56).  Each entry is a regex literal with no metacharacters, so
the compiled alternation `re.compile("|".join(JOB_KEYWORDS), re.IGNORECASE)`
matches a text iff one of these words occurs in it as a substring,
case-insensitively. -/
def JOB_KEYWORDS : List String :=
  [("hiring"), ("opening"), ("opportunity"), ("position"), ("job"),
   ("career"), ("vacancy"), ("recruitment"), ("apply"),
   ("experience required"), ("skills required"), ("role"),
   ("responsibilities"), ("qualifications"), ("immediate joining"),
   ("urgent hiring"), ("job description")]

/-- ASCII lowercasing of one character, embedding Python `str.lower`
(and, applied to the subject text, `re.IGNORECASE` matching of the
all-lowercase ASCII patterns used by the filter). -/
def lowerChar (c : Char) : Char :=
  if 65 ≤ c.toNat ∧ c.toNat ≤ 90 then Char.ofNat (c.toNat + 32) else c

/-- The lowercased character sequence of a text (`content.lower()`). -/
def lowerStr (s : String) : List Char :=
  s.data.map lowerChar

/-- Substring occurrence: `containsSub pat l` holds iff `pat` occurs
contiguously inside `l`.  This is Python's `pat in l` for plain strings,
and `re.search` for a regex that is a string literal. -/
def containsSub (pat : List Char) : List Char → Bool
  | [] => pat.isEmpty
  | c :: cs => pat.isPrefixOf (c :: cs) || containsSub pat cs

/-- Python's `\s` on the ASCII range: space, tab, newline, carriage
return, vertical tab, form feed. -/
def isPySpace (c : Char) : Bool :=
  c = ' ' || c = '\t' || c = '\n' || c = '\r' || c = '\x0b' || c = '\x0c'

/-- After the digits (and optional plus) of the experience pattern:
skip `\s*`, then require the literal `year` (the trailing `s?` of
`years?` is optional, so the bare stem decides existence). -/
def spacesThenYear : List Char → Bool
  | [] => false
  | c :: cs =>
      if isPySpace c then spacesThenYear cs
      else List.isPrefixOf (("year").data) (c :: cs)

/-- A match of the first experience alternative starting at this
position: one digit (a longer digit run matches iff its last digit
does), an optional plus sign, whitespace, then `year`. -/
def matchExperienceAt : List Char → Bool
  | [] => false
  | c :: cs =>
      c.isDigit &&
        (match cs with
         | '+' :: rest => spacesThenYear rest
         | rest => spacesThenYear rest)

/-- Existence of a match of the regex fragment matching a digit run, an
optional plus and the word `year` anywhere in the text. -/
def searchExperience : List Char → Bool
  | [] => false
  | c :: cs => matchExperienceAt (c :: cs) || searchExperience cs

/-- Indicator (a) of `is_job_post` (src/scrape.py lines 370-372): the
regex alternation of `requirement` and `qualification`, each with an
optional trailing `s`; a match exists iff one of the two stems occurs. -/
def has_requirements (lc : List Char) : Bool :=
  containsSub (("requirement").data) lc || containsSub (("qualification").data) lc

/-- Indicator (b) of `is_job_post` (src/scrape.py lines 373-375): a digit
run, optional plus, whitespace and `year(s)`, or the literal phrase
`year(s) of experience`. -/
def has_experience (lc : List Char) : Bool :=
  searchExperience lc ||
  containsSub (("year of experience").data) lc ||
  containsSub (("years of experience").data) lc

/-- Indicator (c) of `is_job_post` (src/scrape.py lines 376-378): the
alternation of six apply-action words, each a string literal. -/
def has_apply_action (lc : List Char) : Bool :=
  containsSub (("apply").data) lc || containsSub (("send").data) lc ||
  containsSub (("email").data) lc || containsSub (("dm").data) lc ||
  containsSub (("interested").data) lc || containsSub (("opportunity").data) lc

/-- The indicator sum of `is_job_post` (src/scrape.py lines 380-391):
the number of true booleans among the three regex indicators and the
four substring tests on `content.lower()`. -/
def indicatorCount (content : String) : Nat :=
  List.count true
    [ has_requirements (lowerStr content),
      has_experience (lowerStr content),
      has_apply_action (lowerStr content),
      containsSub (("resume").data) (lowerStr content),
      containsSub (("cv").data) (lowerStr content),
      containsSub (("position").data) (lowerStr content),
      containsSub (("role").data) (lowerStr content) ]

/-- The stage-1 gate `self.job_pattern.search(content)` of `is_job_post`
(src/scrape.py line 367): the `JOB_KEYWORDS` alternation compiled with
`re.IGNORECASE`. -/
def jobPatternSearch (content : String) : Bool :=
  JOB_KEYWORDS.any (fun kw => containsSub kw.data (lowerStr content))

/-- `LinkedInJobScraper.is_job_post` (src/scrape.py lines 351-393):
falsy content fails immediately; content missing every gate keyword
fails; otherwise the decision is `indicators >= 2`. -/
def is_job_post (content : String) : Bool :=
  if content.data.isEmpty then false
  else if !jobPatternSearch content then false
  else decide (2 ≤ indicatorCount content)

/-- A post record as built by `extract_post_details` (src/scrape.py lines
311-349) and annotated by the pipeline: the dictionary keys `content`,
`url` and `profile_name`, plus the `hiring_post` key that
`classify_jobs` adds later (absent, `none`, until then). -/
structure Post where
  content : String
  url : String
  profile_name : String
  hiring_post : Option Nat := none
deriving DecidableEq

/-- The collection loop of `LinkedInJobScraper.scrape_posts`
(src/scrape.py lines 273-281), run over the extraction results in
element order: a failed extraction (`None`) or an already-seen `url` is
skipped; otherwise the url joins `processed_urls` and the record is
appended to `fetched_posts`.  The Python `processed_urls` set is
modelled as the list of registered urls, queried by membership only. -/
def scrapePostsLoop : List (Option Post) → List String → List Post → List Post
  | [], _, fetched => fetched
  | none :: rest, seen, fetched => scrapePostsLoop rest seen fetched
  | some pd :: rest, seen, fetched =>
      if seen.contains pd.url then scrapePostsLoop rest seen fetched
      else scrapePostsLoop rest (pd.url :: seen) (fetched ++ [pd])

/-- `scrape_posts` applied to the extraction results of one cycle:
`processed_urls` and `fetched_posts` start empty (src/scrape.py lines
262-263). -/
def scrape_posts (cands : List (Option Post)) : List Post :=
  scrapePostsLoop cands [] []

/-- The classification loop of `ScrapeAndClassify.classify_jobs`
(src/main.py lines 70-76): one inference call per post with the post's
`content` as input, whose `classification` field is written into the
post's `hiring_post` key, in index order.  The external inference
collaborator is an oracle `chat : String → Nat` from input text to the
schema's `classification` value; the second component records the
inputs of the inference calls made, in order. -/
def classifyJobsLoop (chat : String → Nat) : List Post → List Post × List String
  | [] => ([], [])
  | p :: rest =>
      let tail := classifyJobsLoop chat rest
      ({ p with hiring_post := some (chat p.content) } :: tail.1,
       p.content :: tail.2)

/-- `ScrapeAndClassify.classify_jobs` (src/main.py lines 57-78).  The
`posts` argument is `none` for an absent argument, `some ps` for a list;
Python's `if not posts` guard fires on `None` and on the empty list and
returns `posts or []`, making no inference call. -/
def classify_jobs (chat : String → Nat) (posts : Option (List Post)) :
    List Post × List String :=
  match posts with
  | none => ([], [])
  | some ps => if ps.isEmpty then (ps, []) else classifyJobsLoop chat ps

/-- `ScrapeAndClassify.save_posts_to_csv` (src/main.py lines 103-123).
The CSV store is `none` when the file does not exist and `some rows`
otherwise; `posts` is the batch argument.  The two fallible I/O calls
inside the `try` block are `pd.read_csv` (only reached when the file
exists) and `DataFrame.to_csv`, modelled by the flags `readOk` and
`writeOk`; a file write is atomic in this model, and a raised exception
lands in the `except` handler, which returns `df_new` (the unsaved
batch) and leaves the store as it was.  The result is the new store
paired with the returned dataframe's rows. -/
def save_posts_to_csv (readOk writeOk : Bool) (store : Option (List Post))
    (posts : Option (List Post)) : Option (List Post) × List Post :=
  match posts with
  | none => (store, [])
  | some ps =>
      if ps.isEmpty then (store, [])
      else
        match store with
        | some existing =>
            if readOk then
              if writeOk then (some (existing ++ ps), existing ++ ps)
              else (store, ps)
            else (store, ps)
        | none =>
            if writeOk then (some ps, ps)
            else (store, ps)

/-- Python truthiness of an optional string argument: `not x` holds for
an omitted argument (`None`) and for the empty string. -/
def pyFalsyStr : Option String → Bool
  | none => true
  | some s => s.data.isEmpty

/-- `OllamaModelSetup.inference` (src/ollama_setup.py lines 169-193).
`input` and `prompt` are optional strings (default `None`); `format`
defaults to `None` and is otherwise a pydantic model class, which is
always truthy, so the flag records only whether it was supplied.  When
`not input or not prompt or not format` holds, a `ValueError` is raised
and the chat backend is never reached; otherwise one chat call is made
with `system` = prompt and `user` = input and its validated
`classification` is returned.  The backend is the oracle
`chat : String → String → Nat` (prompt, input ↦ classification); the
second component lists the (prompt, input) pairs sent to it. -/
def inference (chat : String → String → Nat) (input prompt : Option String)
    (format : Bool) : Except String Nat × List (String × String) :=
  if pyFalsyStr input || pyFalsyStr prompt || !format then
    (Except.error ("Input and format are required."), [])
  else
    (Except.ok (chat (prompt.getD ("")) (input.getD (""))),
     [((prompt.getD ("")), (input.getD ("")))])

/-- The names bound at module level in src/scrape.py: the imported names
(lines 8-29) and the module-level definitions (lines 32, 33, 36, 60, 63,
573).  `CSV_FIELDNAMES` is defined in src/config/settings.py (line 20)
but is absent from the import list at lines 21-29, and it is not a
Python builtin, so it is not in scope anywhere in the module. -/
def scrapeModuleNames : List String :=
  [("logging"), ("webdriver"), ("By"), ("Keys"), ("WebDriverWait"),
   ("EC"), ("TimeoutException"), ("NoSuchElementException"), ("time"),
   ("random"), ("csv"), ("os"), ("re"), ("Optional"), ("Dict"), ("List"),
   ("MAX_SCROLL_ATTEMPTS"), ("MIN_SLEEP_TIME"), ("MAX_SLEEP_TIME"),
   ("WEBDRIVER_WAIT_TIMEOUT"), ("RUN_INTERVAL"), ("INDIAN_CITIES"),
   ("JOB_KEYWORDS"), ("LINKEDIN_LOGIN_URL"), ("LINKEDIN_POST_BASE_URL"),
   ("SELECTORS"), ("logger"), ("LinkedInJobScraper"), ("scrape_jobs")]

/-- Outcome of a Python call: normal return, or an uncaught `NameError`
carrying the unresolvable identifier. -/
inductive PyOutcome where
  | ok : PyOutcome
  | nameError : String → PyOutcome
deriving DecidableEq

/-- `LinkedInJobScraper.save_to_csv` (src/scrape.py lines 290-309).
`open(filename, "a")` keeps the existing rows and creates the file when
it is missing; the `csv.DictWriter(csv_file, fieldnames=CSV_FIELDNAMES)`
argument then resolves the name `CSV_FIELDNAMES` in the enclosing
scopes.  When the name resolves, the writer appends the batch (writing
the header first on a fresh file); when it does not, a `NameError`
escapes before any row is written.  The result pairs the call outcome
with the resulting store contents. -/
def save_to_csv (posts : List Post) (store : Option (List Post)) :
    PyOutcome × Option (List Post) :=
  let rows := store.getD []
  if scrapeModuleNames.contains ("CSV_FIELDNAMES") then
    (PyOutcome.ok, some (rows ++ posts))
  else
    (PyOutcome.nameError ("CSV_FIELDNAMES"), some rows)

/-! ## Theorems -/

/-- Every gate keyword is a nonempty word, so a text matching the gate
is itself nonempty. -/
lemma gate_content_nonempty (content : String)
    (h : jobPatternSearch content = true) :
    content.data.isEmpty = false := by
  rcases content with ⟨cs⟩
  cases cs with
  | nil => exact absurd h (by decide)
  | cons c cs => rfl

/-- C1: once the stage-1 keyword gate has matched, `is_job_post` is
exactly the threshold test: it returns `true` iff at least 2 of the
seven stage-2 indicators hold (so it is `false` below 2 and `true` at
exactly 2). -/
theorem is_job_post_threshold (content : String)
    (hgate : jobPatternSearch content = true) :
    is_job_post content = true ↔ 2 ≤ indicatorCount content := by
  have hne := gate_content_nonempty content hgate
  simp [is_job_post, hne, hgate]

/-- Witness for C1 at the spec's own job-post example, where the gate
matches (via `hiring`) and the indicator count is 2. -/
theorem is_job_post_threshold_witness :
    jobPatternSearch ("We are hiring! 3+ years experience required, apply now") = true ∧
    (is_job_post ("We are hiring! 3+ years experience required, apply now") = true ↔
      2 ≤ indicatorCount ("We are hiring! 3+ years experience required, apply now")) :=
  ⟨by decide, is_job_post_threshold _ (by decide)⟩

/-- C2: on empty content, and on content matching none of the
`JOB_KEYWORDS` patterns, `is_job_post` returns `false` (the gate fails
closed and short-circuits the stage-2 scoring). -/
theorem is_job_post_gate_fails_closed (content : String)
    (h : content.data.isEmpty = true ∨ jobPatternSearch content = false) :
    is_job_post content = false := by
  unfold is_job_post
  cases hh : content.data.isEmpty with
  | true => simp
  | false =>
      rcases h with h | h
      · simp [hh] at h
      · simp [h]

/-- Witness for C2 at a gate-free text. -/
theorem is_job_post_gate_fails_closed_witness :
    (("hello world" : String).data.isEmpty = true ∨
      jobPatternSearch ("hello world") = false) ∧
    is_job_post ("hello world") = false :=
  ⟨Or.inr (by decide), is_job_post_gate_fails_closed _ (Or.inr (by decide))⟩

/-- C3, counterexample: on `"Check out this opportunity for growth"`
the stage-2 indicator count is not 0 — the apply-action alternation
contains the word `opportunity`, so indicator (c) fires. -/
theorem growth_indicator_count_ne_zero :
    ¬ (indicatorCount ("Check out this opportunity for growth") = 0) := by
  decide

/-- C3, amended: on `"Check out this opportunity for growth"` the gate
matches (via `opportunity`), the apply-action indicator also matches
(via the same word), the indicator count is 1 — below the threshold —
and `is_job_post` returns `false`. -/
theorem growth_post_is_not_job_post :
    jobPatternSearch ("Check out this opportunity for growth") = true ∧
    has_apply_action (lowerStr ("Check out this opportunity for growth")) = true ∧
    indicatorCount ("Check out this opportunity for growth") = 1 ∧
    is_job_post ("Check out this opportunity for growth") = false := by
  refine ⟨by decide, by decide, by decide, by decide⟩

/-- Invariant of the collection loop: the retained records bearing a
given url are those already fetched, followed — when the url is not yet
registered — by the first valid remaining candidate with that url. -/
lemma scrapePostsLoop_filter (u : String) (cands : List (Option Post)) :
    ∀ (seen : List String) (fetched : List Post),
      (scrapePostsLoop cands seen fetched).filter (fun p => p.url == u) =
        fetched.filter (fun p => p.url == u) ++
          (if seen.contains u then ([] : List Post)
           else ((cands.filterMap id).find? (fun p => p.url == u)).toList) := by
  induction cands with
  | nil =>
      intro seen fetched
      simp [scrapePostsLoop]
  | cons c rest ih =>
      intro seen fetched
      cases c with
      | none =>
          rw [scrapePostsLoop]
          simpa using ih seen fetched
      | some pd =>
          rw [scrapePostsLoop]
          by_cases hpu : pd.url = u
          · subst hpu
            by_cases hseen : seen.contains pd.url = true
            · rw [if_pos hseen, ih seen fetched]
              simp only [if_pos hseen, List.append_nil]
            · rw [if_neg hseen, ih (pd.url :: seen) (fetched ++ [pd])]
              rw [if_neg hseen]
              simp [List.filter_append]
          · by_cases hseen : seen.contains pd.url = true
            · rw [if_pos hseen, ih seen fetched]
              simp [List.find?_cons, Ne.symm hpu, hpu]
            · rw [if_neg hseen, ih (pd.url :: seen) (fetched ++ [pd])]
              simp [List.filter_append, List.find?_cons, Ne.symm hpu, hpu]

/-- C4: within one scrape cycle, run in element order, the retained
records bearing any given url are exactly one copy of the first valid
candidate with that url (and none when no valid candidate carries it):
invalid candidates and repeated urls are dropped, every other candidate
is appended. -/
theorem scrape_posts_dedup_first_wins (cands : List (Option Post)) (u : String) :
    (scrape_posts cands).filter (fun p => p.url == u) =
      ((cands.filterMap id).find? (fun p => p.url == u)).toList := by
  have h := scrapePostsLoop_filter u cands [] []
  simpa [scrape_posts] using h

/-- C5: `classify_jobs` on an absent (`None`) posts argument and on the
empty list returns the empty list and makes no inference call. -/
theorem classify_jobs_empty_noop (chat : String → Nat) :
    classify_jobs chat none = ([], []) ∧
    classify_jobs chat (some []) = ([], []) :=
  ⟨rfl, rfl⟩

/-- The classification loop maps each post to itself with `hiring_post`
set to the oracle's answer on its content, calling the oracle once per
post in order. -/
lemma classifyJobsLoop_eq (chat : String → Nat) (ps : List Post) :
    classifyJobsLoop chat ps =
      (ps.map (fun p => { p with hiring_post := some (chat p.content) }),
       ps.map (fun p => p.content)) := by
  induction ps with
  | nil => rfl
  | cons p rest ih => simp [classifyJobsLoop, ih]

/-- C6: on a non-empty list, `classify_jobs` returns the posts in input
order with `hiring_post` set, in each record, to the classification the
inference oracle returns on that record's content, all other fields
unchanged; one inference call is made per post, in order, and the
output length equals the input length. -/
theorem classify_jobs_updates_in_order (chat : String → Nat) (ps : List Post)
    (h : ps ≠ []) :
    classify_jobs chat (some ps) =
      (ps.map (fun p => { p with hiring_post := some (chat p.content) }),
       ps.map (fun p => p.content)) ∧
    (classify_jobs chat (some ps)).1.length = ps.length := by
  have hne : ps.isEmpty = false := by simpa using h
  refine ⟨?_, ?_⟩ <;> simp [classify_jobs, hne, classifyJobsLoop_eq]

/-- Witness for C6 on a one-post list with a constant oracle. -/
theorem classify_jobs_updates_in_order_witness :
    (([{ content := ("a"), url := ("u"), profile_name := ("n") }] : List Post) ≠ []) ∧
    (classify_jobs (fun _ => 1)
        (some [{ content := ("a"), url := ("u"), profile_name := ("n") }]) =
      ([{ content := ("a"), url := ("u"), profile_name := ("n"),
          hiring_post := some 1 }], [("a")]) ∧
     (classify_jobs (fun _ => 1)
        (some [{ content := ("a"), url := ("u"), profile_name := ("n") }])).1.length = 1) :=
  ⟨by decide, classify_jobs_updates_in_order (fun _ => 1) _ (by decide)⟩

/-- C7: with working I/O, saving a first batch to a nonexistent store
and then a second batch yields a store holding exactly the first batch
followed by the second: `N + M` rows, the first `N` unmodified. -/
theorem save_posts_to_csv_appends (ps1 ps2 : List Post)
    (h : ps1 ≠ [] ∨ ps2 ≠ []) :
    ((save_posts_to_csv true true
        ((save_posts_to_csv true true none (some ps1)).1) (some ps2)).1
      = some (ps1 ++ ps2)) ∧
    (ps1 ++ ps2).length = ps1.length + ps2.length ∧
    (ps1 ++ ps2).take ps1.length = ps1 := by
  refine ⟨?_, by simp, by simp⟩
  by_cases h1 : ps1.isEmpty
  · have h1' : ps1 = [] := by simpa using h1
    have h2 : ps2 ≠ [] := by
      rcases h with h | h
      · exact absurd h1' h
      · exact h
    have h2' : ps2.isEmpty = false := by simpa using h2
    subst h1'
    simp [save_posts_to_csv, h2']
  · have h1' : ps1.isEmpty = false := by simpa using h1
    by_cases h2 : ps2.isEmpty
    · have h2' : ps2 = [] := by simpa using h2
      subst h2'
      simp [save_posts_to_csv, h1']
    · have h2' : ps2.isEmpty = false := by simpa using h2
      simp [save_posts_to_csv, h1', h2']

/-- Witness for C7 with two one-row batches. -/
theorem save_posts_to_csv_appends_witness :
    (([{ content := ("a"), url := ("u1"), profile_name := ("n") }] : List Post) ≠ [] ∨
      ([{ content := ("b"), url := ("u2"), profile_name := ("m") }] : List Post) ≠ []) ∧
    (((save_posts_to_csv true true
        ((save_posts_to_csv true true none
          (some [{ content := ("a"), url := ("u1"), profile_name := ("n") }])).1)
        (some [{ content := ("b"), url := ("u2"), profile_name := ("m") }])).1
      = some ([{ content := ("a"), url := ("u1"), profile_name := ("n") }] ++
              [{ content := ("b"), url := ("u2"), profile_name := ("m") }])) ∧
     (([{ content := ("a"), url := ("u1"), profile_name := ("n") }] ++
       [{ content := ("b"), url := ("u2"), profile_name := ("m") }] : List Post).length = 1 + 1) ∧
     (([{ content := ("a"), url := ("u1"), profile_name := ("n") }] ++
       [{ content := ("b"), url := ("u2"), profile_name := ("m") }] : List Post).take 1 =
        [{ content := ("a"), url := ("u1"), profile_name := ("n") }])) :=
  ⟨Or.inl (by decide), save_posts_to_csv_appends _ _ (Or.inl (by decide))⟩

/-- C8: when an I/O call that the append actually performs fails — the
read of an existing store, or the write — the call returns the unsaved
batch to the caller and leaves the store exactly as it was; the model
performs the single attempt and no retry. -/
theorem save_posts_to_csv_failure_recovers (readOk writeOk : Bool)
    (store : Option (List Post)) (ps : List Post) (hps : ps ≠ [])
    (hfail : (store.isSome = true ∧ readOk = false) ∨ writeOk = false) :
    save_posts_to_csv readOk writeOk store (some ps) = (store, ps) := by
  have hne : ps.isEmpty = false := by simpa using hps
  rcases store with _ | rows
  · rcases hfail with ⟨hsome, _⟩ | hw
    · simp at hsome
    · subst hw
      simp [save_posts_to_csv, hne]
  · rcases hfail with ⟨_, hr⟩ | hw
    · subst hr
      simp [save_posts_to_csv, hne]
    · subst hw
      cases readOk <;> simp [save_posts_to_csv, hne]

/-- Witness for C8: the read of an existing one-row store fails. -/
theorem save_posts_to_csv_failure_recovers_witness :
    (([{ content := ("b"), url := ("u2"), profile_name := ("m") }] : List Post) ≠ []) ∧
    (((some [{ content := ("a"), url := ("u1"), profile_name := ("n") }] :
        Option (List Post)).isSome = true ∧ (false : Bool) = false) ∨
      (true : Bool) = false) ∧
    save_posts_to_csv false true
        (some [{ content := ("a"), url := ("u1"), profile_name := ("n") }])
        (some [{ content := ("b"), url := ("u2"), profile_name := ("m") }]) =
      (some [{ content := ("a"), url := ("u1"), profile_name := ("n") }],
       [{ content := ("b"), url := ("u2"), profile_name := ("m") }]) :=
  ⟨by decide, Or.inl ⟨rfl, rfl⟩,
    save_posts_to_csv_failure_recovers false true _ _ (by decide) (Or.inl ⟨rfl, rfl⟩)⟩

/-- C9: `inference` raises the `ValueError` — making no chat call — iff
one of its three arguments is missing or empty (`input` or `prompt`
absent or the empty string, or `format` not supplied); with all three
supplied and non-empty it returns the oracle's classification instead,
with exactly one chat call. -/
theorem inference_invalid_argument_iff (chat : String → String → Nat)
    (input prompt : Option String) (format : Bool) :
    inference chat input prompt format =
        (Except.error ("Input and format are required."), []) ↔
      (pyFalsyStr input || pyFalsyStr prompt || !format) = true := by
  cases hc : (pyFalsyStr input || pyFalsyStr prompt || !format) <;>
    simp [inference, hc]

/-- C10: `LinkedInJobScraper.save_to_csv` always escapes with a
`NameError` on `CSV_FIELDNAMES` — the name is bound in the settings
module but never imported into the scrape module — and no row is
written: the store keeps exactly the rows it had (the file merely comes
into existence when it was absent, as `open(..., "a")` creates it before
the failing line runs). -/
theorem save_to_csv_always_name_error (posts : List Post)
    (store : Option (List Post)) :
    save_to_csv posts store =
      (PyOutcome.nameError ("CSV_FIELDNAMES"), some (store.getD [])) := by
  have h : ("CSV_FIELDNAMES") ∉ scrapeModuleNames := by decide
  simp [save_to_csv, h]

end LinkedInScraper
